import Mathlib

/-!
Verification development for the AllInOneMTGBuilder card-text pipeline.

The Python sources are shallowly embedded: strings are Lean `String`s
(operated on as `List Char`), Python `set`s are `Finset`s, Python floats
that only ever carry exact decimal literals and their sums are `ℚ` (with a
separate `MFloat` wrapper to model NaN propagation where the source can
receive NaN), and the few regular expressions in the source are unfolded
into explicit, executable scanners with the same matching semantics
(Python `re` alternation is leftmost-first, `\s+` / `\w*` are greedy runs).
-/

namespace MTG

/-! ### Python string primitives -/

/-- Python `\w` word character (ASCII fragment, which covers oracle text). -/
def wordChar (c : Char) : Bool := c.isAlphanum || c == '_'

/-- Python `\s` / `str.strip` whitespace (ASCII fragment). -/
def spaceChar (c : Char) : Bool :=
  c == ' ' || c == '\t' || c == '\n' || c == '\r' || c == '\x0b' || c == '\x0c'

def lowerChars (l : List Char) : List Char := l.map Char.toLower

def upperChars (l : List Char) : List Char := l.map Char.toUpper

/-- Python `str.lower()` (ASCII fragment). -/
def pyLower (s : String) : String := String.mk (lowerChars s.toList)

/-- Python `str.upper()` (ASCII fragment). -/
def pyUpper (s : String) : String := String.mk (upperChars s.toList)

/-- Python `str.strip()` with default whitespace. -/
def pyStripChars (l : List Char) : List Char :=
  ((l.dropWhile spaceChar).reverse.dropWhile spaceChar).reverse

def pyStrip (s : String) : String := String.mk (pyStripChars s.toList)

/-- Python `str.strip(chars)`: strip any of the given characters from both ends. -/
def pyStripSet (cs : List Char) (s : String) : String :=
  String.mk (((s.toList.dropWhile (cs.contains ·)).reverse.dropWhile (cs.contains ·)).reverse)

/-- Substring test on char lists: Python `sub in hay`. -/
def charsContain (hay sub : List Char) : Bool :=
  match hay with
  | [] => sub.isEmpty
  | _ :: t => sub.isPrefixOf hay || charsContain t sub

/-- Python `sub in s`. -/
def strContains (s sub : String) : Bool := charsContain s.toList sub.toList

/-- Python `s.startswith(sub)`. -/
def strStarts (s sub : String) : Bool := sub.toList.isPrefixOf s.toList

/-- Python `s.endswith(sub)`. -/
def strEnds (s sub : String) : Bool := sub.toList.isSuffixOf s.toList

/-- Python `str.split(sep, 1)` on a single-character separator:
`none` when the separator does not occur. -/
def splitFirstChars (sep : Char) : List Char → Option (List Char × List Char)
  | [] => none
  | c :: t =>
    if c = sep then some ([], t)
    else match splitFirstChars sep t with
      | none => none
      | some (a, b) => some (c :: a, b)

def splitFirst (sep : Char) (s : String) : Option (String × String) :=
  match splitFirstChars sep s.toList with
  | none => none
  | some (a, b) => some (String.mk a, String.mk b)

/-- Python `str.split(sep)` on a single-character separator (keeps empties). -/
def splitAllChars (sep : Char) (l : List Char) : List (List Char) :=
  match l with
  | [] => [[]]
  | c :: t =>
    let rest := splitAllChars sep t
    if c = sep then [] :: rest
    else match rest with
      | [] => [[c]]
      | h :: r => (c :: h) :: r

def splitAll (sep : Char) (s : String) : List String :=
  (splitAllChars sep s.toList).map String.mk

/-- Python `str.split()` with no argument: split on whitespace runs, no empties. -/
def splitWsChars (l : List Char) : List (List Char) :=
  match l with
  | [] => []
  | c :: t =>
    let rest := splitWsChars t
    if spaceChar c then rest
    else match rest, t with
      | h :: r, d :: _ => if spaceChar d then [c] :: h :: r else (c :: h) :: r
      | _, _ => [c] :: rest

def splitWs (s : String) : List String := (splitWsChars s.toList).map String.mk

/-- Replace every occurrence of a character by a string (Python `str.replace`
for the single-character patterns the source uses). -/
def replaceCharChars (c : Char) (r : List Char) (l : List Char) : List Char :=
  match l with
  | [] => []
  | d :: t => (if d = c then r else [d]) ++ replaceCharChars c r t

/-- Python `str.isdigit()` (ASCII digits). -/
def pyIsDigit (s : String) : Bool :=
  !s.toList.isEmpty && s.toList.all (·.isDigit)

/-- Numeric value of a nonempty digit string. -/
def digitsToNat (l : List Char) : Nat :=
  l.foldl (fun acc c => acc * 10 + (c.toNat - 48)) 0

/-- Join a list of strings with a separator, as Python join does. -/
def joinSep (sep : String) : List String → String
  | [] => ""
  | [x] => x
  | x :: xs => x ++ sep ++ joinSep sep xs

/-! ### Regex-equivalent scanners

The source uses a handful of fixed regular expressions.  Each is unfolded
into an explicit scanner with Python `re` semantics: leftmost match,
ordered alternation, greedy character-class runs. -/

/-- Start positions (ascending) at which `w` occurs in `t` delimited by `\b`
on both sides (`w` starts and ends with word characters, as every pattern
the source feeds through `\b...\b` does). -/
def boundedOccsAux (prevWord : Bool) (w : List Char) (idx : Nat) : List Char → List Nat
  | [] => []
  | c :: rest =>
    let afterOk :=
      match (c :: rest).drop w.length with
      | [] => true
      | d :: _ => !wordChar d
    let here := !prevWord && w.isPrefixOf (c :: rest) && afterOk
    let tail := boundedOccsAux (wordChar c) w (idx + 1) rest
    if here then idx :: tail else tail

def boundedOccs (t w : List Char) : List Nat := boundedOccsAux false w 0 t

/-- `re.search(r"\bw\b", t)` as a boolean. -/
def wordSearch (t : String) (w : String) : Bool :=
  !(boundedOccs t.toList w.toList).isEmpty

/-- Start positions at which a word begins with `w` (`\bw\w*`): position has a
word boundary on its left and `w` as a prefix. -/
def wordStartOccsAux (prevWord : Bool) (w : List Char) (idx : Nat) : List Char → List Nat
  | [] => []
  | c :: rest =>
    let here := !prevWord && w.isPrefixOf (c :: rest)
    let tail := wordStartOccsAux (wordChar c) w (idx + 1) rest
    if here then idx :: tail else tail

def wordStartOccs (t w : List Char) : List Nat := wordStartOccsAux false w 0 t

/-- No `'.'` among positions `[lo, hi)` of `t` (the `[^\.]*` gaps). -/
def noPeriod (t : List Char) (lo hi : Nat) : Bool :=
  ((t.drop lo).take (hi - lo)).all (· ≠ '.')

/-! ### OracleMine.py — tier heuristics -/

/-- `OracleMine.is_replacement_like`. -/
def is_replacement_like (cl0 : String) : Bool :=
  let cl := pyLower cl0
  let has_instead_or_prevent := strContains cl " instead" || strContains cl "prevent "
  let has_if_when_would_as :=
    strContains cl " if "
    || strStarts cl "if "
    || strContains cl " whenever "
    || strStarts cl "whenever "
    || strContains cl " when "
    || strStarts cl "when "
    || strContains cl " would "
    || strStarts cl "as "
  has_instead_or_prevent && has_if_when_would_as

/-- `OracleMine.is_triggered_like`. -/
def is_triggered_like (cl0 : String) : Bool :=
  let cl := pyLower cl0
  strStarts cl "whenever "
  || strStarts cl "when "
  || strStarts cl "at the beginning"
  || strContains cl " whenever "
  || strContains cl " at the beginning of "
  || strContains cl "at end of combat"
  || strContains cl "at the end of combat"

/-- `OracleMine.is_activated_like`: look for a "COST: effect" shape. -/
def is_activated_like (clause : String) : Bool :=
  match splitFirst ':' clause with
  | none => false
  | some (cost_part, _) =>
    let cl_cost := pyLower cost_part
    if strContains cost_part "\x7b" then true
    else
      ["tap ", "untap ", "discard a card", "discard a creature card",
       "sacrifice a", "sacrifice another", "pay \x7bn\x7d life", "pay \x7bcost\x7d",
       "exile a", "exile this", "return", "remove a +1/+1 counter"].any
        (fun m => strContains cl_cost m)

/-- `OracleMine.classify_tier`: order matters,
replacement > triggered > activated > static/other. -/
def classify_tier (clause : String) : String :=
  let cl := pyStrip clause
  if cl = "" then "none"
  else if is_replacement_like cl then "replacement"
  else if is_triggered_like cl then "triggered"
  else if is_activated_like cl then "activated"
  else "static_or_other"

/-! ### mtg_vocab.py — enumerations -/

inductive Source where
  | ANY | CARD | RULES
deriving DecidableEq

inductive Step where
  | UNTAP | UPKEEP | DRAW_STEP | BEGIN_COMBAT | DECLARE_ATTACKERS
  | DECLARE_BLOCKERS | COMBAT_DAMAGE | END_COMBAT | MAIN1 | MAIN2
  | END_STEP | CLEANUP
deriving DecidableEq

inductive Zone where
  | HAND | STACK | BATTLEFIELD | GRAVEYARD | EXILE | LIBRARY | COMMAND
deriving DecidableEq

inductive Cause where
  | SACRIFICE | DESTROY | DAMAGE | COST | EFFECT | RULES | SBA
  | CAST | ACTIVATION | TRIGGER | OTHER
deriving DecidableEq

inductive ObjKind where
  | CARD | TOKEN | PERMANENT | CREATURE | ARTIFACT | ENCHANTMENT
  | LAND | PLANESWALKER | SPELL | ABILITY
deriving DecidableEq

/-- `PermanentStatus` is an `IntFlag` bitset; flags as Nat masks. -/
def TAPPED : Nat := 1
def PHASED_OUT : Nat := 2
def FACE_DOWN : Nat := 4
def TRANSFORMED : Nat := 8
def FLIPPED : Nat := 16

/-! ### card_atoms.py — atoms, patterns, matcher -/

structure ZoneMove where
  from_zone : Zone
  to_zone : Zone
  obj : ObjKind
  obj_types : Finset String := ∅
  controller : Option String := none
  cause : Cause := Cause.OTHER
  source : Source := Source.ANY
deriving DecidableEq

structure ResourceDelta where
  resource : String
  delta : Int
  target : Option String := none
  subtype : Option String := none
  cause : Cause := Cause.OTHER
  source : Source := Source.ANY
deriving DecidableEq

structure StepChange where
  step : Step
  source : Source := Source.RULES
deriving DecidableEq

structure StateDelta where
  target : Option String := none
  set_mask : Nat := 0
  clear_mask : Nat := 0
  cause : Cause := Cause.OTHER
  source : Source := Source.ANY
deriving DecidableEq

structure ZoneMovePattern where
  from_zone : Option Zone := none
  to_zone : Option Zone := none
  obj : Option ObjKind := none
  controller : Option String := none
  cause : Option Cause := none
  source : Option Source := none
  require_type : Option String := none
  forbid_type : Option String := none
deriving DecidableEq

structure ResourceDeltaPattern where
  resource : Option String := none
  delta : Option Int := none
  target : Option String := none
  subtype : Option String := none
  cause : Option Cause := none
  source : Option Source := none
deriving DecidableEq

structure StepChangePattern where
  step : Option Step := none
  source : Option Source := none
deriving DecidableEq

structure StateDeltaPattern where
  target : Option String := none
  set_mask : Option Nat := none
  clear_mask : Option Nat := none
  cause : Option Cause := none
  source : Option Source := none
deriving DecidableEq

inductive Atom where
  | zone (z : ZoneMove)
  | res (r : ResourceDelta)
  | step (s : StepChange)
  | state (s : StateDelta)
deriving DecidableEq

inductive AtomPattern where
  | zone (z : ZoneMovePattern)
  | res (r : ResourceDeltaPattern)
  | step (s : StepChangePattern)
  | state (s : StateDeltaPattern)
deriving DecidableEq

/-- `card_atoms.tap_atom`. -/
def tap_atom (target : String := "SELF") (cause : Cause := Cause.COST)
    (source : Source := Source.CARD) : StateDelta :=
  { target := some target, set_mask := TAPPED, cause := cause, source := source }

/-- `card_atoms.untap_atom`. -/
def untap_atom (target : String := "SELF") (cause : Cause := Cause.EFFECT)
    (source : Source := Source.CARD) : StateDelta :=
  { target := some target, clear_mask := TAPPED, cause := cause, source := source }

/-- Pattern field test: `None` is a wildcard, otherwise `==` with the atom field. -/
def wEq {α : Type} [DecidableEq α] (p : Option α) (v : α) : Bool :=
  match p with
  | none => true
  | some x => decide (x = v)

/-- Pattern field test against an optional atom field (Python compares the
pattern value with `==` to the atom's possibly-`None` field). -/
def wEqOpt {α : Type} [DecidableEq α] (p : Option α) (v : Option α) : Bool :=
  match p with
  | none => true
  | some x => decide (some x = v)

/-- `card_atoms.atom_matches`: cross-variant comparisons are false; `StateDelta`
masks use bitset-subset tests, every other specified field uses equality. -/
def atom_matches (pattern : AtomPattern) (atom : Atom) : Bool :=
  match pattern, atom with
  | AtomPattern.zone p, Atom.zone a =>
    (match p.require_type with
     | none => true
     | some rt => decide (rt ∈ a.obj_types)) &&
    (match p.forbid_type with
     | none => true
     | some ft => decide (ft ∉ a.obj_types)) &&
    wEq p.from_zone a.from_zone &&
    wEq p.to_zone a.to_zone &&
    wEq p.obj a.obj &&
    wEqOpt p.controller a.controller &&
    wEq p.cause a.cause &&
    wEq p.source a.source
  | AtomPattern.res p, Atom.res a =>
    wEq p.resource a.resource &&
    wEq p.delta a.delta &&
    wEqOpt p.target a.target &&
    wEqOpt p.subtype a.subtype &&
    wEq p.cause a.cause &&
    wEq p.source a.source
  | AtomPattern.step p, Atom.step a =>
    wEq p.step a.step &&
    wEq p.source a.source
  | AtomPattern.state p, Atom.state a =>
    wEqOpt p.target a.target &&
    (match p.set_mask with
     | none => true
     | some m => decide (a.set_mask &&& m = m)) &&
    (match p.clear_mask with
     | none => true
     | some m => decide (a.clear_mask &&& m = m)) &&
    wEq p.cause a.cause &&
    wEq p.source a.source
  | _, _ => false

/-- The pattern that copies every field of a concrete `ZoneMove`
(`require_type`/`forbid_type` have no atom counterpart and stay wildcards). -/
def zmCopy (a : ZoneMove) : ZoneMovePattern :=
  { from_zone := some a.from_zone, to_zone := some a.to_zone, obj := some a.obj,
    controller := a.controller, cause := some a.cause, source := some a.source }

def rdCopy (a : ResourceDelta) : ResourceDeltaPattern :=
  { resource := some a.resource, delta := some a.delta, target := a.target,
    subtype := a.subtype, cause := some a.cause, source := some a.source }

def scCopy (a : StepChange) : StepChangePattern :=
  { step := some a.step, source := some a.source }

def sdCopy (a : StateDelta) : StateDeltaPattern :=
  { target := a.target, set_mask := some a.set_mask, clear_mask := some a.clear_mask,
    cause := some a.cause, source := some a.source }

/-! ### card_effects.py — data model -/

inductive EventKind where
  | CAST | DRAW | CREATE | GAIN | LOSE | ADD | DEAL | SACRIFICE
  | ENTERS | DIES | DESTROY | EXILE | BOUNCE | COUNTER | TUTOR
  | REANIMATE | STEP | STATE
deriving DecidableEq

inductive Resource where
  | NONE | CARD | TOKEN | LIFE | MANA | COUNTER | DAMAGE | PERMANENT
deriving DecidableEq

inductive Scope where
  | YOU | OPPONENT | ANY_PLAYER | YOUR_PERMANENT | ANY_PERMANENT | SELF
deriving DecidableEq

/-- `card_effects.ActionUnit`. -/
structure ActionUnit where
  verb : String
  quantity : Option Nat
  obj : Option String
  target : Option String
  kind : Option String
  text_span : String
deriving DecidableEq

/-- `card_effects.EventTag`. -/
structure EventTag where
  kind : EventKind
  resource : Resource
  scope : Scope
  step : Option Step := none
deriving DecidableEq

/-- Convenience helper `ev` for EventTags (as in the source). -/
def ev (kind : EventKind) (res : Resource) (scope : Scope)
    (step : Option Step := none) : EventTag :=
  { kind := kind, resource := res, scope := scope, step := step }

/-- `card_effects.KeywordHit`. -/
structure KeywordHit where
  keyword : String
  left_words : List String
  right_words : List String
deriving DecidableEq

/-- `card_effects.Effect` (Python sets become `Finset`s; `modes` is a list of
dicts that the parser never populates, modelled by an always-empty list). -/
structure Effect where
  raw_text : String
  effect_type : String
  trigger_tags : Finset EventTag := ∅
  cost_tags : Finset EventTag := ∅
  result_tags : Finset EventTag := ∅
  trigger_atoms : List Atom := []
  cost_atoms : List Atom := []
  result_atoms : List Atom := []
  actor_tags : Finset String := ∅
  target_tags : Finset String := ∅
  timing : Option String := none
  condition_description : Option String := none
  modes : List Unit := []
  trigger_text : Option String := none
  cost_text : Option String := none
  result_text : Option String := none
  trigger_actions : List ActionUnit := []
  cost_actions : List ActionUnit := []
  result_actions : List ActionUnit := []
  keyword_hits : List KeywordHit := []

/-- Python floats reaching the pipeline: exact rationals plus the IEEE
specials NaN and ±infinity (no rounding is modelled since the source only
moves these values around; it never does float arithmetic on them). -/
inductive MFloat where
  | fin (q : ℚ)
  | nan
  | inf
  | ninf
deriving DecidableEq

/-- `card_effects.Card`. -/
structure Card where
  name : String
  mana_value : MFloat
  mana_cost : String
  colors : List String
  types : List String
  subtypes : List String
  is_permanent : Bool
  cast_timing : String
  oracle_text : String
  keywords : List String
  power : Option Int := none
  toughness : Option Int := none
  loyalty : Option Int := none
  effects : List Effect := []

/-! ### card_effects.py — lexicons -/

def VERB_LEXICON : List String :=
  ["draw", "create", "gain", "lose", "deal", "destroy", "exile",
   "sacrifice", "return", "untap", "tap", "search", "reveal",
   "put", "mill", "copy", "add", "fight", "cast", "play",
   "scry", "proliferate", "remove", "counter"]

def QUANTITY_WORDS : List String :=
  ["a", "an", "one", "two", "three", "four", "five", "six", "x"]

def OBJECT_WORDS : List String :=
  ["damage", "card", "cards", "token", "tokens", "life",
   "counter", "counters", "land", "lands", "creature", "creatures",
   "permanent", "permanents", "spell", "spells", "mana", "library"]

def TARGET_MARKERS : List String :=
  ["target", "any", "each", "that", "those", "it", "this"]

def ACTION_LIBRARY : List ((String × String) × String) :=
  [(("draw", "card"), "DRAW_CARD"),
   (("draw", "cards"), "DRAW_CARD"),
   (("create", "token"), "CREATE_TOKEN"),
   (("create", "tokens"), "CREATE_TOKEN"),
   (("deal", "damage"), "DEAL_DAMAGE"),
   (("gain", "life"), "GAIN_LIFE"),
   (("lose", "life"), "LOSE_LIFE"),
   (("add", "mana"), "ADD_MANA"),
   (("put", "counter"), "ADD_COUNTER"),
   (("put", "counters"), "ADD_COUNTER"),
   (("remove", "counter"), "REMOVE_COUNTER"),
   (("remove", "counters"), "REMOVE_COUNTER"),
   (("sacrifice", "creature"), "SACRIFICE_CREATURE"),
   (("sacrifice", "permanent"), "SACRIFICE_PERMANENT"),
   (("destroy", "creature"), "DESTROY_CREATURE"),
   (("destroy", "permanent"), "DESTROY_PERMANENT"),
   (("exile", "creature"), "EXILE_CREATURE"),
   (("exile", "permanent"), "EXILE_PERMANENT"),
   (("return", "creature"), "RETURN_CREATURE"),
   (("return", "card"), "RETURN_CARD"),
   (("mill", "card"), "MILL_CARD"),
   (("mill", "cards"), "MILL_CARD"),
   (("search", "library"), "SEARCH_LIBRARY"),
   (("cast", "spell"), "CAST_SPELL")]

def actionLookup (verb obj : String) : Option String :=
  (ACTION_LIBRARY.find? (fun p => p.1.1 == verb && p.1.2 == obj)).map (·.2)

def WORD_TO_INT : List (String × Nat) :=
  [("one", 1), ("two", 2), ("three", 3), ("four", 4), ("five", 5), ("six", 6)]

/-- `WORD_TO_INT.get(qtok, 1)`. -/
def wordToInt (q : String) : Nat :=
  ((WORD_TO_INT.find? (fun p => p.1 == q)).map (·.2)).getD 1

/-! ### card_effects.py — micro-grammar (`extract_action_units`) -/

/-- `card_effects._simple_tokens`. -/
def _simple_tokens (clause : String) : List String :=
  let cs := replaceCharChars ',' " , ".toList clause.toList
  let cs := replaceCharChars ':' " : ".toList cs
  let cs := replaceCharChars '.' " . ".toList cs
  (splitWsChars cs).map String.mk

def tokAt (toks : List String) (i : Nat) : String := (toks[i]?).getD ""

/-- The object scan of `extract_action_units`: up to 5 tokens from `j`,
returning the found object (lowercased) and the final scan index. -/
def objScanAux (toks : List String) (n : Nat) : Nat → Nat → Option String × Nat
  | k, 0 => (none, k)
  | k, fuel + 1 =>
    if k < n then
      let otok := pyLower (tokAt toks k)
      if OBJECT_WORDS.contains otok then (some otok, k + 1)
      else objScanAux toks n (k + 1) fuel
    else (none, k)

/-- The target scan of `extract_action_units`: first target-marker token from
`t_idx` on; classify its 4-token window, or stop with no target. -/
def targetScanAux (toks : List String) (n : Nat) : Nat → Nat → Option String
  | _, 0 => none
  | t_idx, fuel + 1 =>
    if t_idx < n then
      let t := pyLower (tokAt toks t_idx)
      if TARGET_MARKERS.contains t then
        let window := pyLower (joinSep " " ((toks.drop t_idx).take 4))
        if strStarts window "any target" then some "any target"
        else if strStarts window "target creature" then some "target creature"
        else if strStarts window "target opponent" then some "target opponent"
        else if strStarts window "target player" then some "target player"
        else if strStarts window "each opponent" then some "each opponent"
        else if strStarts window "each player" then some "each player"
        else none
      else targetScanAux toks n (t_idx + 1) fuel
    else none

def extract_units_aux (clause : String) (toks : List String) (n : Nat)
    (lc nameL : String) : Nat → Nat → List ActionUnit
  | _, 0 => []
  | i, fuel + 1 =>
    if i < n then
      let tok := pyLower (tokAt toks i)
      if VERB_LEXICON.contains tok then
        let verb := tok
        let j0 := i + 1
        -- 1) quantity
        let qj : Option Nat × Nat :=
          if j0 < n then
            let qtok := pyLower (tokAt toks j0)
            if pyIsDigit qtok then (some (digitsToNat qtok.toList), j0 + 1)
            else if QUANTITY_WORDS.contains qtok then
              (if qtok = "x" then none else some (wordToInt qtok), j0 + 1)
            else (none, j0)
          else (none, j0)
        let quantity := qj.1
        let j := qj.2
        -- 2) object (with verb-specific defaults)
        let ok := objScanAux toks n j 5
        let k := ok.2
        let obj : Option String :=
          match ok.1 with
          | some o => some o
          | none =>
            if verb = "deal" then some "damage"
            else if (verb = "gain" || verb = "lose") && strContains lc "life" then some "life"
            else if verb = "draw" then some "card"
            else none
        -- 3) target (self-reference overrides, then marker scan)
        let target : Option String :=
          if nameL ≠ "" && strContains lc ("from " ++ nameL) then some "self"
          else if strContains lc "from this creature" || strContains lc "from it"
              || strContains lc "this creature" then some "self"
          else targetScanAux toks n k n
        -- 4) canonical action kind (with singular-form fallback)
        let kind : Option String :=
          match obj with
          | none => none
          | some o =>
            match actionLookup verb o with
            | some k0 => some k0
            | none =>
              let singular := if strEnds o "s" then String.mk o.toList.dropLast else o
              actionLookup verb singular
        if obj.isNone && kind.isNone then
          extract_units_aux clause toks n lc nameL (i + 1) fuel
        else
          { verb := verb, quantity := quantity, obj := obj, target := target,
            kind := kind, text_span := clause }
            :: extract_units_aux clause toks n lc nameL (i + 1) fuel
      else extract_units_aux clause toks n lc nameL (i + 1) fuel
    else []

/-- `card_effects.extract_action_units`. -/
def extract_action_units (clause : String) (card_name : Option String) : List ActionUnit :=
  let toks := _simple_tokens clause
  let n := toks.length
  let lc := pyLower clause
  let nameL := pyLower (card_name.getD "")
  extract_units_aux clause toks n lc nameL 0 n

/-! ### card_effects.py — clause splitting and classification -/

/-- The ordered alternatives of `TRIGGER_PREFIX_RE`
(`^(when|whenever|at the beginning of|at the start of|at )`, IGNORECASE).
Python `re` alternation is leftmost-first, so `"when"` is tried before
`"whenever"` and wins on any text starting with `"Whenever"`. -/
def TRIGGER_PREAMBLES : List String :=
  ["when", "whenever", "at the beginning of", "at the start of", "at "]

/-- `TRIGGER_PREFIX_RE.match(text)`: the matched text (`m.group(0)`, original
casing) of the first alternative that matches at the start. -/
def triggerPreambleMatch (text : String) : Option String :=
  match TRIGGER_PREAMBLES.find? (fun alt => strStarts (pyLower text) alt) with
  | none => none
  | some alt => some (String.mk (text.toList.take alt.length))

/-- `re.split(r"\.\s+", line)`: split at each period followed by a
(greedy) whitespace run, consuming both.  Fueled scan; fuel `≥ length`
always suffices since each step consumes at least one character. -/
def splitPeriodWsAux : Nat → List Char → List (List Char)
  | 0, l => [l]
  | _, [] => [[]]
  | fuel + 1, c :: rest =>
    let isSplit := c == '.' && (match rest with | d :: _ => spaceChar d | [] => false)
    if isSplit then [] :: splitPeriodWsAux fuel (rest.dropWhile spaceChar)
    else
      match splitPeriodWsAux fuel rest with
      | [] => [[c]]
      | h :: r => (c :: h) :: r

def splitPeriodWs (s : String) : List String :=
  (splitPeriodWsAux (s.length + 1) s.toList).map String.mk

/-- `card_effects._split_abilities`. -/
def _split_abilities (oracle_text : String) : List String :=
  if oracle_text = "" then []
  else
    let lines := ((splitAll '\n' oracle_text).map pyStrip).filter (· ≠ "")
    (lines.map (fun line =>
      if strContains line ":" || (triggerPreambleMatch line).isSome then
        [pyStrip line]
      else
        ((splitPeriodWs line).map pyStrip).filter (· ≠ ""))).flatten

/-- `card_effects._split_trigger_clause`. -/
def _split_trigger_clause (text : String) : Option String × String :=
  match triggerPreambleMatch text with
  | none => (none, text)
  | some g =>
    let rest := pyStrip (String.mk (text.toList.drop g.length))
    match splitFirst ',' rest with
    | some (trigger_part, result_part) =>
      (some (pyStrip (pyStrip g ++ " " ++ pyStrip trigger_part)), pyStrip result_part)
    | none => (some (pyStrip text), "")

/-- `card_effects._split_cost_clause`. -/
def _split_cost_clause (text : String) : Option String × String :=
  match splitFirst ':' text with
  | none => (none, text)
  | some (cost_part, result_part) => (some (pyStrip cost_part), pyStrip result_part)

/-- `card_effects._guess_effect_type`. -/
def _guess_effect_type (clause : String) : String :=
  let cl := pyLower clause
  if strStarts cl "if " && strContains cl " would " && strContains cl " instead" then
    "replacement"
  else if strStarts cl "whenever " || strStarts cl "when " || strStarts cl "at the beginning" then
    "triggered"
  else
    match splitFirst ':' clause with
    | some (left0, _) =>
      let left := pyLower left0
      if strContains left "\x7b" || strContains left "sacrifice" || strContains left "discard"
          || strContains left "exile" || strContains left "tap" || strContains left "untap"
          || strContains left "pay" then "activated"
      else "static"
    | none => "static"

/-! ### card_effects.py — mana-symbol parsing -/

/-- `_MTG_SYMBOL_RE.findall`: the inner text of each `{...}` group
(`[^}]+` may itself contain `{`; unterminated groups are dropped). -/
def manaSymAux : Option (List Char) → List Char → List String
  | _, [] => []
  | some inner, '\x7d' :: rest =>
    if inner.isEmpty then manaSymAux none rest
    else String.mk inner.reverse :: manaSymAux none rest
  | some inner, c :: rest => manaSymAux (some (c :: inner)) rest
  | none, '\x7b' :: rest => manaSymAux (some []) rest
  | none, _ :: rest => manaSymAux none rest

/-- `card_effects._mana_symbols`. -/
def _mana_symbols (text : String) : List String := manaSymAux none text.toList

/-- `re.findall(r"\{[^}]+\}", text)`: the same matches with their braces. -/
def bracedSymbols (text : String) : List String :=
  (_mana_symbols text).map (fun s => "\x7b" ++ s ++ "\x7d")

/-- `card_effects._mana_cost_from_symbols`. -/
def _mana_cost_from_symbols (symbols : List String) : Nat :=
  symbols.foldl (fun total s =>
    let u := pyStrip (pyUpper s)
    if u = "T" || u = "Q" then total
    else if pyIsDigit u then total + digitsToNat u.toList
    else if u = "X" || u = "Y" || u = "Z" then total
    else total + 1) 0

/-- `re.split(r"\s+or\s+", text, flags=IGNORECASE)`.  Fueled scan with the
regex's greedy-run semantics. -/
def splitOrAux : Nat → List Char → List (List Char)
  | 0, l => [l]
  | _, [] => [[]]
  | fuel + 1, c :: rest =>
    let noSplit :=
      fun (_ : Unit) =>
        match splitOrAux fuel rest with
        | [] => [[c]]
        | h :: tl => (c :: h) :: tl
    if spaceChar c then
      match rest.dropWhile spaceChar with
      | o :: r :: r3 =>
        if o.toLower == 'o' && r.toLower == 'r'
            && (match r3 with | d :: _ => spaceChar d | [] => false) then
          [] :: splitOrAux fuel (r3.dropWhile spaceChar)
        else noSplit ()
      | _ => noSplit ()
    else noSplit ()

def splitOrRe (s : String) : List String :=
  (splitOrAux (s.length + 1) s.toList).map String.mk

def maxNatList (l : List Nat) : Nat := l.foldl max 0

/-- `card_effects._mana_gain_from_add_clause`. -/
def _mana_gain_from_add_clause (text : String) : Option (Nat × String) :=
  if text = "" then none
  else
    let lower := pyLower text
    if !strContains lower "add" || !strContains text "\x7b" then none
    else
      let parts := splitOrRe text
      let opts := parts.filterMap (fun part =>
        let syms := _mana_symbols part
        let mana_syms := syms.filter (fun s => pyUpper s ≠ "T" && pyUpper s ≠ "Q")
        if mana_syms.isEmpty then none
        else some (_mana_cost_from_symbols mana_syms, joinSep "" mana_syms))
      if opts.isEmpty then none
      else some (maxNatList (opts.map (·.1)), joinSep "|" (opts.map (·.2)))

/-! ### card_effects.py — remaining regex searches -/

/-- `re.search(r"\badd\s+\{", text, IGNORECASE)` (applied to lowered text). -/
def addBraceScanAux (prevWord : Bool) : List Char → Bool
  | [] => false
  | c :: rest =>
    (!prevWord && "add".toList.isPrefixOf (c :: rest) &&
      (let r := (c :: rest).drop 3
       !(r.takeWhile spaceChar).isEmpty &&
        (match r.dropWhile spaceChar with | '\x7b' :: _ => true | _ => false)))
    || addBraceScanAux (wordChar c) rest

def addBraceSearch (text : String) : Bool :=
  addBraceScanAux false (lowerChars text.toList)

/-- `re.search(r"you may pay\s+\{", text, IGNORECASE)` (no word boundary). -/
def youMayPayScanAux : List Char → Bool
  | [] => false
  | c :: rest =>
    ("you may pay".toList.isPrefixOf (c :: rest) &&
      (let r := (c :: rest).drop 11
       !(r.takeWhile spaceChar).isEmpty &&
        (match r.dropWhile spaceChar with | '\x7b' :: _ => true | _ => false)))
    || youMayPayScanAux rest

def youMayPaySearch (text : String) : Bool :=
  youMayPayScanAux (lowerChars text.toList)

/-- Try `r"pay\s+(\d+)\s+life"` at the head of `l`. -/
def payLifeAt (l : List Char) : Option Nat :=
  if "pay".toList.isPrefixOf l then
    let r1 := l.drop 3
    if (r1.takeWhile spaceChar).isEmpty then none
    else
      let r2 := r1.dropWhile spaceChar
      let ds := r2.takeWhile (·.isDigit)
      if ds.isEmpty then none
      else
        let r3 := r2.dropWhile (·.isDigit)
        if (r3.takeWhile spaceChar).isEmpty then none
        else
          let r4 := r3.dropWhile spaceChar
          if "life".toList.isPrefixOf r4 then some (digitsToNat ds) else none
  else none

def payLifeScan : List Char → Option Nat
  | [] => none
  | c :: rest =>
    match payLifeAt (c :: rest) with
    | some n => some n
    | none => payLifeScan rest

/-- `re.search(r"pay\s+(\d+)\s+life", cl)`, with the source's `1` default. -/
def payLifeSearch (cl : String) : Nat := (payLifeScan cl.toList).getD 1

/-- `card_effects._subject_verb_object`: the search
`\bsubj\b[^\.]*\bverb\w*\b[^\.]*\bobj\b` over the whitespace-normalized,
lowercased text.  The `\w*\b` after the verb makes the verb a word-initial
prefix; the word characters it absorbs are never periods, so the period-free
gap may be measured from the end of the verb root itself. -/
def _subject_verb_object (text subject verb_root obj_word : String) : Bool :=
  let t := joinSep " " (splitWs (pyLower text))
  let tc := t.toList
  let subj := (pyLower subject).toList
  let verb := (pyLower verb_root).toList
  let obj := (pyLower obj_word).toList
  (boundedOccs tc subj).any (fun i1 =>
    (wordStartOccs tc verb).any (fun i2 =>
      decide (i1 + subj.length ≤ i2) && noPeriod tc (i1 + subj.length) i2 &&
      (boundedOccs tc obj).any (fun i3 =>
        decide (i2 + verb.length ≤ i3) && noPeriod tc (i2 + verb.length) i3)))

/-! ### card_effects.py — atom parsers -/

/-- Python `n or d` for an optional int (`0` and `None` both fall back). -/
def pyOrNat (q : Option Nat) (d : Nat) : Nat :=
  match q with
  | some n => if n = 0 then d else n
  | none => d

/-- Python `s or d` for an optional string (`""` and `None` both fall back). -/
def pyOrStr (o : Option String) (d : String) : String :=
  match o with
  | some s => if s = "" then d else s
  | none => d

/-- `card_effects._parse_cost_atoms`. -/
def _parse_cost_atoms (cost_text : String) : List Atom :=
  let cl := pyLower cost_text
  let tapA : List Atom :=
    if strContains cl "\x7bt\x7d" then [Atom.state (tap_atom "SELF" Cause.COST Source.CARD)] else []
  let untapA : List Atom :=
    if strContains cl "\x7bq\x7d" then [Atom.state (untap_atom "SELF" Cause.COST Source.CARD)] else []
  let syms := _mana_symbols cost_text
  let mana_syms := syms.filter (fun s => pyUpper s ≠ "T" && pyUpper s ≠ "Q")
  let mana_cost := _mana_cost_from_symbols mana_syms
  let manaA : List Atom :=
    if mana_cost ≠ 0 then
      [Atom.res { resource := "mana", delta := -(mana_cost : Int), target := some "YOU",
                  cause := Cause.COST, source := Source.CARD }]
    else []
  let sacA : List Atom :=
    if strContains cl "sacrifice" then
      [Atom.zone { from_zone := Zone.BATTLEFIELD, to_zone := Zone.GRAVEYARD,
                   obj := ObjKind.PERMANENT, controller := some "YOU",
                   cause := Cause.SACRIFICE, source := Source.CARD }]
    else []
  let discardA : List Atom :=
    if strContains cl "discard" && strContains cl "card" then
      [Atom.zone { from_zone := Zone.HAND, to_zone := Zone.GRAVEYARD,
                   obj := ObjKind.CARD, controller := some "YOU",
                   cause := Cause.COST, source := Source.CARD }]
    else []
  let payA : List Atom :=
    if strContains cl "pay" && strContains cl "life" then
      [Atom.res { resource := "life", delta := -(payLifeSearch cl : Int), target := some "YOU",
                  cause := Cause.COST, source := Source.CARD }]
    else []
  let removeA : List Atom :=
    if strContains cl "remove" && strContains cl "counter" then
      [Atom.res { resource := "counter", delta := -1, target := some "SELF",
                  subtype := if strContains cl "+1/+1" then some "+1/+1" else none,
                  cause := Cause.COST, source := Source.CARD }]
    else []
  tapA ++ untapA ++ manaA ++ sacA ++ discardA ++ payA ++ removeA

/-- `card_effects._parse_result_atoms`. -/
def _parse_result_atoms (result_text : String) (card_name : Option String) : List Atom :=
  let cl := pyLower result_text
  let manaA : List Atom :=
    match _mana_gain_from_add_clause result_text with
    | some (mana_amt, subtype) =>
      [Atom.res { resource := "mana", delta := (mana_amt : Int), target := some "YOU",
                  subtype := some subtype, cause := Cause.EFFECT, source := Source.CARD }]
    | none => []
  let units := extract_action_units result_text card_name
  let unitA : List Atom :=
    (units.map (fun act =>
      if act.kind == some "DRAW_CARD" then
        List.replicate (pyOrNat act.quantity 1)
          (Atom.zone { from_zone := Zone.LIBRARY, to_zone := Zone.HAND, obj := ObjKind.CARD,
                       controller := some "YOU", cause := Cause.EFFECT, source := Source.CARD })
      else if act.kind == some "CREATE_TOKEN" then
        List.replicate (pyOrNat act.quantity 1)
          (Atom.zone { from_zone := Zone.COMMAND, to_zone := Zone.BATTLEFIELD, obj := ObjKind.TOKEN,
                       controller := some "YOU", cause := Cause.EFFECT, source := Source.CARD })
      else if act.kind == some "GAIN_LIFE" then
        [Atom.res { resource := "life", delta := (pyOrNat act.quantity 1 : Int),
                    target := some "YOU", cause := Cause.EFFECT, source := Source.CARD }]
      else if act.kind == some "LOSE_LIFE" then
        [Atom.res { resource := "life", delta := -(pyOrNat act.quantity 1 : Int),
                    target := some (if strContains cl "opponent" then "OPPONENT" else "YOU"),
                    cause := Cause.EFFECT, source := Source.CARD }]
      else if act.kind == some "DEAL_DAMAGE" then
        [Atom.res { resource := "damage", delta := (pyOrNat act.quantity 1 : Int),
                    target := some (pyOrStr act.target "ANY"),
                    cause := Cause.EFFECT, source := Source.CARD }]
      else if act.kind == some "ADD_COUNTER" then
        [Atom.res { resource := "counter", delta := (pyOrNat act.quantity 1 : Int),
                    target := some "SELF",
                    subtype := if strContains cl "+1/+1" then some "+1/+1" else none,
                    cause := Cause.EFFECT, source := Source.CARD }]
      else if act.kind == some "REMOVE_COUNTER" then
        [Atom.res { resource := "counter", delta := -(pyOrNat act.quantity 1 : Int),
                    target := some "SELF",
                    subtype := if strContains cl "+1/+1" then some "+1/+1" else none,
                    cause := Cause.EFFECT, source := Source.CARD }]
      else if act.kind == some "ADD_MANA" then
        [Atom.res { resource := "mana", delta := (pyOrNat act.quantity 1 : Int),
                    target := some "YOU", cause := Cause.EFFECT, source := Source.CARD }]
      else [])).flatten
  let untapA : List Atom :=
    if wordSearch cl "untap" then [Atom.state (untap_atom "TARGET" Cause.EFFECT Source.CARD)] else []
  let tapA : List Atom :=
    if wordSearch cl "tap" then [Atom.state (tap_atom "TARGET" Cause.EFFECT Source.CARD)] else []
  manaA ++ unitA ++ untapA ++ tapA

/-! ### card_effects.py — EventTag parsers -/

/-- `card_effects._scope_for_you_default`. -/
def _scope_for_you_default (cl : String) : Scope :=
  if strContains cl "under your control" || strContains cl "you control"
      || strContains cl "your " then Scope.YOUR_PERMANENT
  else Scope.YOU

/-- `card_effects._parse_result_tags`. -/
def _parse_result_tags (result_text : String) (card_name : Option String) : Finset EventTag :=
  let cl := pyLower result_text
  let _scope_default := _scope_for_you_default cl
  let units := extract_action_units result_text card_name
  -- 1) ActionUnit-driven mapping
  let t1 : Finset EventTag := units.foldl (fun tags act =>
    if act.kind == some "DRAW_CARD" then insert (ev .DRAW .CARD .YOU) tags
    else if act.kind == some "CREATE_TOKEN" then insert (ev .CREATE .TOKEN .YOU) tags
    else if act.kind == some "GAIN_LIFE" then
      insert (ev .GAIN .LIFE
        (if strContains cl "each opponent gains" || strContains cl "target opponent gains"
         then Scope.OPPONENT else Scope.YOU)) tags
    else if act.kind == some "LOSE_LIFE" then
      insert (ev .LOSE .LIFE
        (if strContains cl "target opponent" || strContains cl "each opponent"
            || strContains cl "opponent loses"
         then Scope.OPPONENT else Scope.YOU)) tags
    else if act.kind == some "DEAL_DAMAGE" then
      insert (ev .DEAL .DAMAGE
        (match act.target with
         | some t => if t ≠ "" && strContains t "opponent" then Scope.OPPONENT else Scope.ANY_PLAYER
         | none => Scope.ANY_PLAYER)) tags
    else if act.kind == some "ADD_MANA" then insert (ev .ADD .MANA .YOU) tags
    else if act.kind == some "ADD_COUNTER" then insert (ev .ADD .COUNTER .YOUR_PERMANENT) tags
    else if act.kind == some "REMOVE_COUNTER" then insert (ev .LOSE .COUNTER .YOUR_PERMANENT) tags
    else if act.kind == some "SACRIFICE_CREATURE" then
      insert (ev .SACRIFICE .PERMANENT .YOUR_PERMANENT) tags
    else tags) ∅
  -- 2) raw-text fallbacks
  let t2 := if strContains cl "into your hand" && (strContains cl "card" || strContains cl "cards")
                && strContains cl "put" then insert (ev .DRAW .CARD .YOU) t1 else t1
  let t3 := if strContains cl "scry" then insert (ev .DRAW .CARD .YOU) t2 else t2
  let t4 := if _subject_verb_object cl "you" "draw" "card" then insert (ev .DRAW .CARD .YOU) t3 else t3
  let t5 := if _subject_verb_object cl "you" "gain" "life" then insert (ev .GAIN .LIFE .YOU) t4 else t4
  let t6 := if _subject_verb_object cl "target opponent" "lose" "life"
                || _subject_verb_object cl "each opponent" "lose" "life"
                || _subject_verb_object cl "an opponent" "lose" "life"
                || _subject_verb_object cl "opponent" "lose" "life" then
      insert (ev .LOSE .LIFE .OPPONENT) t5 else t5
  let t7 := if strContains cl "each opponent sacrifices a creature" then
      insert (ev .SACRIFICE .PERMANENT .OPPONENT) t6 else t6
  let t8 := if strContains cl "each opponent" && strContains cl "discards" then
      insert (ev .LOSE .CARD .OPPONENT) t7 else t7
  let t9 := if strContains cl "target opponent discards" || strContains cl "target player discards" then
      insert (ev .LOSE .CARD .ANY_PLAYER) t8 else t8
  let t10 := if _subject_verb_object cl "it" "deal" "damage"
                || (strContains cl "deals" && strContains cl "damage") then
      insert (ev .DEAL .DAMAGE .ANY_PLAYER) t9 else t9
  let t11 := if strContains cl "add" && strContains cl "mana" then
      insert (ev .ADD .MANA .YOU) t10 else t10
  let t12 := if addBraceSearch result_text then insert (ev .ADD .MANA .YOU) t11 else t11
  let t13 := if youMayPaySearch result_text then insert (ev .LOSE .MANA .YOU) t12 else t12
  if strContains cl "return" && strContains cl "to the battlefield" then
    let scope := if strContains cl "under your control" || strContains cl "your graveyard"
        || strContains cl "you control" then Scope.YOUR_PERMANENT else Scope.ANY_PERMANENT
    -- the source computes the same Resource.PERMANENT in both branches
    let res := if strContains cl "creature card" || strContains cl "creature"
        then Resource.PERMANENT else Resource.PERMANENT
    insert (ev .ENTERS res scope) t13
  else t13

/-- `card_effects._parse_trigger_tags`. -/
def _parse_trigger_tags (trigger_text : String) (card_name : Option String) : Finset EventTag :=
  let tl := pyLower trigger_text
  let units := extract_action_units trigger_text card_name
  let t1 : Finset EventTag :=
    if strContains tl "at the beginning of your upkeep" then
      {ev .STEP .PERMANENT .YOU (some Step.UPKEEP)} else ∅
  let t2 :=
    if strContains (" " ++ tl ++ " ") " cast " && strContains tl "spell" then
      if strContains tl "you cast" then insert (ev .CAST .CARD .YOU) t1
      else if strContains tl "each opponent casts" || strContains tl "an opponent casts"
          || strContains tl "opponent casts" then insert (ev .CAST .CARD .OPPONENT) t1
      else if strContains tl "each player casts" || strContains tl "a player casts" then
        insert (ev .CAST .CARD .ANY_PLAYER) t1
      else t1
    else t1
  let t3 := units.foldl (fun tags act =>
    if act.kind == some "CAST_SPELL" then
      if strContains tl "you cast" then insert (ev .CAST .CARD .YOU) tags
      else if strContains tl "opponent casts" then insert (ev .CAST .CARD .OPPONENT) tags
      else insert (ev .CAST .CARD .ANY_PLAYER) tags
    else tags) t2
  let t4 := if _subject_verb_object tl "you" "draw" "card" then
      insert (ev .DRAW .CARD .YOU) t3 else t3
  let t5 := if _subject_verb_object tl "you" "gain" "life" then
      insert (ev .GAIN .LIFE .YOU) t4 else t4
  let t6 := if _subject_verb_object tl "opponent" "lose" "life"
                || _subject_verb_object tl "each opponent" "lose" "life"
                || _subject_verb_object tl "an opponent" "lose" "life"
                || _subject_verb_object tl "target opponent" "lose" "life" then
      insert (ev .LOSE .LIFE .OPPONENT) t5 else t5
  let t7 := if strContains tl "creature you control dies"
                || strContains tl "another creature you control dies" then
      insert (ev .DIES .PERMANENT .YOUR_PERMANENT) t6 else t6
  let t8 := if strContains tl "creature an opponent controls dies"
                || strContains tl "another creature an opponent controls dies" then
      insert (ev .DIES .PERMANENT .OPPONENT) t7 else t7
  let t9 := if strContains tl "dies" && strContains tl "creature"
                && !decide (∃ t ∈ t8, t.kind = EventKind.DIES) then
      insert (ev .DIES .PERMANENT .ANY_PERMANENT) t8 else t8
  let t10 := if strContains tl "put into your graveyard from the battlefield"
                && strContains tl "creature" then
      insert (ev .DIES .PERMANENT .YOUR_PERMANENT) t9 else t9
  let t11 := if strContains tl "this creature enters" then
      insert (ev .ENTERS .PERMANENT .YOUR_PERMANENT) t10 else t10
  let t12 := if strContains tl "enters" && strContains tl "you control" then
      (if strContains tl "token" then insert (ev .ENTERS .TOKEN .YOUR_PERMANENT) t11
       else insert (ev .ENTERS .PERMANENT .YOUR_PERMANENT) t11)
    else t11
  if strContains tl "enters the battlefield under your control" then
    if strContains tl "token" then insert (ev .ENTERS .TOKEN .YOUR_PERMANENT) t12
    else insert (ev .ENTERS .PERMANENT .YOUR_PERMANENT) t12
  else if strContains tl "enters the battlefield" then
    insert (ev .ENTERS .PERMANENT .ANY_PERMANENT) t12
  else t12

/-- `card_effects._parse_cost_tags`. -/
def _parse_cost_tags (cost_text : String) : Finset EventTag :=
  let cl := pyLower cost_text
  let symbols := bracedSymbols cost_text
  let mana_symbols := symbols.filter
    (fun s => pyLower s ≠ "\x7bt\x7d" && pyLower s ≠ "\x7bq\x7d")
  let t1 : Finset EventTag := if !mana_symbols.isEmpty then {ev .LOSE .MANA .YOU} else ∅
  -- the source's `"{t}" in cl or "{q}" in cl` branch adds no tag
  let t2 := if strContains cl "sacrifice" then
      insert (ev .SACRIFICE .PERMANENT .YOUR_PERMANENT) t1 else t1
  let t3 := if strContains cl "discard" && strContains cl "card" then
      insert (ev .LOSE .CARD .YOU) t2 else t2
  let t4 := if strContains cl "pay" && strContains cl "life" then
      insert (ev .LOSE .LIFE .YOU) t3 else t3
  if strContains cl "remove a +1/+1 counter" || strContains cl "remove a counter" then
    insert (ev .LOSE .COUNTER .YOUR_PERMANENT) t4
  else t4

/-! ### card_effects.py — actor/target tags and keyword hits -/

/-- `card_effects._infer_actor_tags`. -/
def _infer_actor_tags (cl : String) : Finset String :=
  let t1 : Finset String :=
    if strStarts cl "you " || strContains cl " you " || strContains cl " your " then {"YOU"} else ∅
  let t2 := if strContains cl "each opponent" then insert "EACH_OPPONENT" t1 else t1
  let t3 := if strContains cl "each player" then insert "EACH_PLAYER" t2 else t2
  if strContains cl "target opponent" || strContains cl "an opponent" then
    insert "OPPONENT" t3
  else t3

/-- `card_effects._infer_target_tags`. -/
def _infer_target_tags (cl : String) : Finset String :=
  let t1 : Finset String :=
    if strContains cl "another target creature you control" then {"ANOTHER_CREATURE_YOU_CONTROL"}
    else if strContains cl "creature you control" then {"CREATURE_YOU_CONTROL"}
    else ∅
  let t2 := if strContains cl "token you control" || strContains cl "tokens you control" then
      insert "TOKEN_YOU_CONTROL" t1 else t1
  let t3 := if strContains cl "target creature or enchantment you control" then
      insert "CREATURE_OR_ENCHANTMENT_YOU_CONTROL" t2 else t2
  let t4 := if strContains cl "any target" then insert "ANY_TARGET" t3
    else if strContains cl "target creature" then insert "ANY_CREATURE" t3
    else t3
  if strContains cl "target player" then insert "ANY_PLAYER" t4 else t4

/-- The keys of `constants.KEYWORD_GLOSSARY`, in dict insertion order. -/
def KEYWORD_GLOSSARY_KEYS : List String :=
  ["tap", "x", "additional cost", "cost", "mana", "mana ability", "mana value",
   "mulligan", "aura", "equipment", "planeswalker", "legendary", "basic land",
   "permanent", "token", "spell", "source", "color", "colorless",
   "enters the battlefield", "leaves the battlefield", "put onto the battlefield",
   "exile", "shuffle", "scry", "sacrifice", "discard",
   "counter a spell or ability", "counter on a permanent", "destroy", "damage",
   "combat damage", "deathtouch", "double strike", "first strike", "trample",
   "flying", "reach", "menace", "vigilance", "lifelink", "haste", "goad",
   "defender", "hexproof", "indestructible", "flash", "flashback", "control",
   "controller", "owner", "player", "opponent", "you"]

/-- `WORD_TOKEN_RE = \w+|\S` with spans (`_tokenize_with_spans`).  Fueled:
each step consumes at least one character. -/
def tokenizeSpansAux : Nat → Nat → List Char → List (String × Nat × Nat)
  | 0, _, _ => []
  | _, _, [] => []
  | fuel + 1, idx, c :: rest =>
    if wordChar c then
      let run := (c :: rest).takeWhile wordChar
      (String.mk run, idx, idx + run.length)
        :: tokenizeSpansAux fuel (idx + run.length) ((c :: rest).drop run.length)
    else if spaceChar c then tokenizeSpansAux fuel (idx + 1) rest
    else (String.mk [c], idx, idx + 1) :: tokenizeSpansAux fuel (idx + 1) rest

def _tokenize_with_spans (text : String) : List (String × Nat × Nat) :=
  tokenizeSpansAux (text.length + 1) 0 text.toList

/-- `card_effects._extract_keyword_hits` (the source's `seen` set never
filters anything: occurrences of one keyword are pairwise distinct). -/
def _extract_keyword_hits (clause : String) : List KeywordHit :=
  if clause = "" then []
  else
    let lower := lowerChars clause.toList
    let tokens := _tokenize_with_spans clause
    (KEYWORD_GLOSSARY_KEYS.map (fun kw =>
      let kw_l := (pyLower kw).toList
      (boundedOccs lower kw_l).filterMap (fun start =>
        match tokens.findIdx? (fun tok => tok.2.1 ≤ start && start < tok.2.2) with
        | none => none
        | some token_idx =>
          let left_start := token_idx - 2
          let right_end := min tokens.length (token_idx + 1 + 3)
          some { keyword := kw,
                 left_words := ((tokens.drop left_start).take (token_idx - left_start)).map (·.1),
                 right_words :=
                   ((tokens.drop (token_idx + 1)).take (right_end - (token_idx + 1))).map (·.1) })
      )).flatten

/-! ### card_effects.py — effect assembly -/

/-- The per-ability body of `parse_effects_from_text`: split, tag, build the
atoms and drop the effect when it produced no tags and no atoms at all. -/
def effectOfClause (clause : String) (card_name : Option String) : Option Effect :=
  if clause = "" then none
  else
    let cl := pyLower clause
    let effect_type := _guess_effect_type clause
    let kw_hits := _extract_keyword_hits clause
    -- classify and split into sub-spans
    let pieces :
        Option String × Option String × String
          × Finset EventTag × Finset EventTag × Finset EventTag
          × List ActionUnit × List ActionUnit × List ActionUnit :=
      if effect_type = "triggered" then
        let st := _split_trigger_clause clause
        let trigger_text := st.1
        let result_text := st.2
        let trigOk := match trigger_text with | some t => t != "" | none => false
        (trigger_text, none, result_text,
         (if trigOk then _parse_trigger_tags (trigger_text.getD "") card_name else ∅), ∅,
         (if result_text ≠ "" then _parse_result_tags result_text card_name else ∅),
         (if trigOk then extract_action_units (trigger_text.getD "") card_name else []), [],
         (if result_text ≠ "" then extract_action_units result_text card_name else []))
      else if effect_type = "activated" then
        let sc := _split_cost_clause clause
        let cost_text := sc.1
        let result_text := sc.2
        let costOk := match cost_text with | some c => c != "" | none => false
        (none, cost_text, result_text,
         ∅, (if costOk then _parse_cost_tags (cost_text.getD "") else ∅),
         (if result_text ≠ "" then _parse_result_tags result_text card_name else ∅),
         [], (if costOk then extract_action_units (cost_text.getD "") card_name else []),
         (if result_text ≠ "" then extract_action_units result_text card_name else []))
      else
        (none, none, clause,
         ∅, ∅, _parse_result_tags clause card_name,
         [], [], extract_action_units clause card_name)
    let trigger_text := pieces.1
    let cost_text := pieces.2.1
    let result_text := pieces.2.2.1
    let trigger_tags := pieces.2.2.2.1
    let cost_tags := pieces.2.2.2.2.1
    let result_tags := pieces.2.2.2.2.2.1
    let trigger_actions := pieces.2.2.2.2.2.2.1
    let cost_actions := pieces.2.2.2.2.2.2.2.1
    let result_actions := pieces.2.2.2.2.2.2.2.2
    -- actors / targets
    let actor_tags0 := _infer_actor_tags cl
    let actor_tags := if effect_type = "activated" then insert "YOU" actor_tags0 else actor_tags0
    let target_tags := _infer_target_tags cl
    -- atoms (trigger atoms are initialized and never assigned in the source)
    let trigger_atoms : List Atom := []
    let cost_atoms :=
      match cost_text with
      | some c => if c ≠ "" then _parse_cost_atoms c else []
      | none => []
    let result_atoms := if result_text ≠ "" then _parse_result_atoms result_text card_name else []
    -- ignore pure reminder / flavor clauses
    if trigger_tags = ∅ && cost_tags = ∅ && result_tags = ∅
        && trigger_atoms.isEmpty && cost_atoms.isEmpty && result_atoms.isEmpty then none
    else
      some { raw_text := clause, effect_type := effect_type,
             trigger_tags := trigger_tags, cost_tags := cost_tags, result_tags := result_tags,
             trigger_atoms := trigger_atoms, cost_atoms := cost_atoms, result_atoms := result_atoms,
             actor_tags := actor_tags, target_tags := target_tags,
             timing := none, condition_description := trigger_text, modes := [],
             trigger_text := trigger_text, cost_text := cost_text,
             result_text := some result_text,
             trigger_actions := trigger_actions, cost_actions := cost_actions,
             result_actions := result_actions, keyword_hits := kw_hits }

/-- `card_effects.parse_effects_from_text` (the `type_line` parameter is
accepted and unused, exactly as in the source). -/
def parse_effects_from_text (oracle_text : String) (type_line : String)
    (card_name : Option String) : List Effect :=
  let _ := type_line
  if oracle_text = "" then []
  else
    (_split_abilities oracle_text).filterMap
      (fun ability => effectOfClause (pyStrip ability) card_name)

/-! ### card_effects.py — row handling and card assembly -/

/-- Values a pandas row cell can carry in this model: strings, floats
(including NaN / ±inf), `None`, and lists of strings. -/
inductive PVal where
  | pstr (s : String)
  | pnum (x : MFloat)
  | pnone
  | plist (xs : List String)
deriving DecidableEq

/-- Python truthiness for the modelled values (NaN and ±inf are truthy). -/
def pyTruthy : PVal → Bool
  | .pstr s => s ≠ ""
  | .pnum (.fin q) => q ≠ 0
  | .pnum _ => true
  | .pnone => false
  | .plist xs => !xs.isEmpty

/-- Python `str(float)`.  Integral floats (the only finite values the corpus
columns carry) render exactly; other finite rationals get a fraction
rendering, which no modelled code path observes. -/
def floatRepr : MFloat → String
  | .nan => "nan"
  | .inf => "inf"
  | .ninf => "-inf"
  | .fin q => if q.den = 1 then toString q.num ++ ".0"
              else toString q.num ++ "/" ++ toString q.den

/-- Python `str(x)` on the modelled values. -/
def pyStr : PVal → String
  | .pstr s => s
  | .pnum x => floatRepr x
  | .pnone => "None"
  | .plist xs => "[" ++ joinSep ", " (xs.map (fun s => "\x27" ++ s ++ "\x27")) ++ "]"

/-- Python `float(str)`: strip, optional sign, `nan`/`inf`, or a decimal
literal with optional fraction and exponent; everything else raises
(returns `none`). -/
def pyParseFloat (s : String) : Option MFloat :=
  let t := lowerChars (pyStripChars s.toList)
  let signed : Int × List Char :=
    match t with
    | '+' :: r => (1, r)
    | '-' :: r => (-1, r)
    | _ => (1, t)
  let sign := signed.1
  let t1 := signed.2
  if t1 = "nan".toList then some .nan
  else if t1 = "inf".toList || t1 = "infinity".toList then
    some (if sign = 1 then .inf else .ninf)
  else
    let d1 := t1.takeWhile (·.isDigit)
    let r1 := t1.dropWhile (·.isDigit)
    let fr : List Char × List Char :=
      match r1 with
      | '.' :: rr => (rr.takeWhile (·.isDigit), rr.dropWhile (·.isDigit))
      | _ => ([], r1)
    let d2 := fr.1
    let r2 := fr.2
    if d1.isEmpty && d2.isEmpty then none
    else
      let mant : ℚ := (digitsToNat d1 : ℚ) + (digitsToNat d2 : ℚ) / ((10 : ℚ) ^ d2.length)
      match r2 with
      | [] => some (.fin (sign * mant))
      | 'e' :: er =>
        let esigned : Bool × List Char :=
          match er with
          | '+' :: rr => (true, rr)
          | '-' :: rr => (false, rr)
          | _ => (true, er)
        let ed := esigned.2.takeWhile (·.isDigit)
        if ed.isEmpty || !(esigned.2.dropWhile (·.isDigit)).isEmpty then none
        else
          let factor : ℚ := (10 : ℚ) ^ digitsToNat ed
          some (.fin (sign * (if esigned.1 then mant * factor else mant / factor)))
      | _ => none

/-- Python `float(x)` on the modelled values, with exceptions as `Except`. -/
def pyFloatE : PVal → Except Unit MFloat
  | .pstr s => match pyParseFloat s with | some x => .ok x | none => .error ()
  | .pnum x => .ok x
  | .pnone => .error ()
  | .plist _ => .error ()

/-- A Scryfall-like row: each field either absent (`none`) or carrying an
arbitrary modelled value. -/
structure Row where
  name : Option PVal := none
  oracle_text : Option PVal := none
  type_line : Option PVal := none
  mana_cost : Option PVal := none
  cmc : Option PVal := none
  keywords : Option PVal := none
  color_identity : Option PVal := none
deriving DecidableEq

/-- `str(row.get(field, "") or "")`. -/
def strFieldOf (field : Option PVal) : String :=
  let v := field.getD (PVal.pstr "")
  pyStr (if pyTruthy v then v else PVal.pstr "")

/-- `card_effects.card_from_row`. -/
def card_from_row (row : Row) : Card :=
  let type_line := strFieldOf row.type_line
  let oracle_text := strFieldOf row.oracle_text
  let name := strFieldOf row.name
  -- keywords (robust)
  let keywords :=
    match row.keywords.getD (PVal.plist []) with
    | .plist xs => xs
    | .pnone => []
    | .pnum .nan => []
    | .pstr s => ((splitAll ',' s).map pyStrip).filter (· ≠ "")
    | _ => []
  -- colors / color_identity (robust); the ndarray branch of the source is
  -- outside the modelled value universe
  let colors :=
    match row.color_identity.getD (PVal.plist []) with
    | .plist xs => xs
    | .pnone => []
    | .pnum .nan => []
    | .pstr s =>
      if strStarts s "[" && strEnds s "]" then
        let inner := String.mk (s.toList.drop 1).dropLast
        ((splitAll ',' inner).filter (fun c => pyStrip c ≠ "")).map
          (pyStripSet [' ', '\x27', '"'])
      else
        (s.toList.filter (fun c => ['W', 'U', 'B', 'R', 'G'].contains c)).map
          (fun c => String.mk [c])
    | .pnum _ => []
  -- crude type split
  let types := (splitWs (String.mk (replaceCharChars '—' "-".toList type_line.toList))).filter
    (fun t => match t.toList with | c :: _ => c.isUpper | [] => false)
  let cast_timing :=
    if strContains type_line "Instant" then "instant_speed"
    else if strContains type_line "Sorcery" then "sorcery_speed"
    else "special"
  let is_permanent := !(strContains type_line "Instant" || strContains type_line "Sorcery")
  -- `float(row.get("cmc", 0) or 0.0)` in a try/except
  let mana_value :=
    let v := row.cmc.getD (PVal.pnum (MFloat.fin 0))
    match pyFloatE (if pyTruthy v then v else PVal.pnum (MFloat.fin 0)) with
    | .ok x => x
    | .error _ => MFloat.fin 0
  let effects := parse_effects_from_text oracle_text type_line (some name)
  { name := name, mana_value := mana_value, mana_cost := strFieldOf row.mana_cost,
    colors := colors, types := types, subtypes := [],
    is_permanent := is_permanent, cast_timing := cast_timing,
    oracle_text := oracle_text, keywords := keywords, effects := effects }

/-! ### card_effects.py — synergy scoring -/

def all_trigger_tags (c : Card) : Finset EventTag :=
  c.effects.foldr (fun e acc => e.trigger_tags ∪ acc) ∅

def all_result_tags (c : Card) : Finset EventTag :=
  c.effects.foldr (fun e acc => e.result_tags ∪ acc) ∅

def all_cost_tags (c : Card) : Finset EventTag :=
  c.effects.foldr (fun e acc => e.cost_tags ∪ acc) ∅

/-- `card_synergy`'s `effect_produces_mana`. -/
def effect_produces_mana (e : Effect) : Bool :=
  e.result_atoms.any (fun a =>
    match a with
    | Atom.res r => r.resource == "mana" && decide (0 < r.delta)
    | _ => false)

/-- `card_synergy`'s `effect_consumes_mana`. -/
def effect_consumes_mana (e : Effect) : Bool :=
  e.cost_atoms.any (fun a =>
    match a with
    | Atom.res r => r.resource == "mana" && decide (r.delta < 0)
    | _ => false)

/-- `card_synergy`'s `effect_produces_bodies`. -/
def effect_produces_bodies (e : Effect) : Bool :=
  e.result_atoms.any (fun a =>
    match a with
    | Atom.zone z =>
      z.to_zone == Zone.BATTLEFIELD
        && (z.obj == ObjKind.TOKEN || z.obj == ObjKind.PERMANENT)
        && z.controller == some "YOU"
    | _ => false)

/-- `card_synergy`'s `effect_sacs_creatures`. -/
def effect_sacs_creatures (e : Effect) : Bool :=
  e.cost_atoms.any (fun a =>
    match a with
    | Atom.zone z =>
      z.from_zone == Zone.BATTLEFIELD && z.to_zone == Zone.GRAVEYARD
        && z.obj == ObjKind.PERMANENT && z.controller == some "YOU"
        && z.cause == Cause.SACRIFICE
    | _ => false)

/-- Step 2a of the per-effect loop: effect-level trigger feeds. -/
def tag_feed_score (ea eb : Effect) : ℚ :=
  (if (ea.result_tags ∩ eb.trigger_tags).Nonempty then 3 else 0)
    + (if (eb.result_tags ∩ ea.trigger_tags).Nonempty then 3 else 0)

/-- Step 2b: mana producers feeding mana consumers (both directions). -/
def mana_feed_score (ea eb : Effect) : ℚ :=
  (if effect_produces_mana ea && effect_consumes_mana eb then 2 else 0)
    + (if effect_produces_mana eb && effect_consumes_mana ea then 2 else 0)

/-- Step 2c: bodies feeding sacrifice outlets (both directions). -/
def body_feed_score (ea eb : Effect) : ℚ :=
  (if effect_produces_bodies ea && effect_sacs_creatures eb then 2 else 0)
    + (if effect_produces_bodies eb && effect_sacs_creatures ea then 2 else 0)

/-- Everything `card_synergy` adds for one `(ea, eb)` pair of effects. -/
def pair_score (ea eb : Effect) : ℚ :=
  tag_feed_score ea eb + mana_feed_score ea eb + body_feed_score ea eb

def GOOD_RESOURCES : Finset (EventKind × Resource) :=
  {(EventKind.DRAW, Resource.CARD), (EventKind.CREATE, Resource.TOKEN),
   (EventKind.ADD, Resource.COUNTER), (EventKind.ADD, Resource.MANA),
   (EventKind.GAIN, Resource.LIFE)}

/-- `card_synergy`'s `good_output_pairs`. -/
def good_output_pairs (res_tags : Finset EventTag) : Finset (EventKind × Resource) :=
  (res_tags.filter (fun t =>
    (t.kind, t.resource) ∈ GOOD_RESOURCES
      ∧ (t.scope = Scope.YOU ∨ t.scope = Scope.YOUR_PERMANENT))).image
    (fun t => (t.kind, t.resource))

def BAD_COST_PAIRS : Finset (EventKind × Resource) :=
  {(EventKind.SACRIFICE, Resource.PERMANENT), (EventKind.LOSE, Resource.LIFE)}

/-- `card_synergy`'s `bad_costs`. -/
def bad_costs (cost_tags : Finset EventTag) : Finset (EventKind × Resource) :=
  (cost_tags.filter (fun t => (t.kind, t.resource) ∈ BAD_COST_PAIRS)).image
    (fun t => (t.kind, t.resource))

/-- `card_effects.card_synergy`.  All weights are exact multiples of `1/2`,
so the Python float accumulation is exact and `ℚ` models it faithfully. -/
def card_synergy (a b : Card) : ℚ :=
  let a_trig := all_trigger_tags a
  let a_res := all_result_tags a
  let a_cost := all_cost_tags a
  let b_trig := all_trigger_tags b
  let b_res := all_result_tags b
  let b_cost := all_cost_tags b
  -- 1) direct event feeds (card-level)
  let feeds : ℚ := 3 * (((a_res ∩ b_trig).card : ℚ) + ((b_res ∩ a_trig).card : ℚ))
  -- 2) per-effect synergy passes
  let pairs : ℚ := (a.effects.map (fun ea => (b.effects.map (fun eb => pair_score ea eb)).sum)).sum
  -- 3) shared outputs for YOU at card level (weight 1.5)
  let shared_good : ℚ := ((good_output_pairs a_res ∩ good_output_pairs b_res).card : ℚ)
  -- 4) shared scarce costs (weight 1.0)
  let shared_bad : ℚ := ((bad_costs a_cost ∩ bad_costs b_cost).card : ℚ)
  feeds + pairs + (3 / 2) * shared_good - shared_bad

/-! ### Concrete fixtures used by the theorems -/

/-- An effect whose cost atoms hold `ResourceDelta(mana, -1)` and whose
result atoms are empty (the cost/result-separation scenario's consumer). -/
def manaConsumerEffect : Effect :=
  { raw_text := "", effect_type := "activated",
    cost_atoms := [Atom.res { resource := "mana", delta := -1 }],
    result_atoms := [] }

/-- An effect whose result atoms hold `ResourceDelta(mana, +1)` (the
cost/result-separation scenario's producer). -/
def manaProducerEffect : Effect :=
  { raw_text := "", effect_type := "static",
    result_atoms := [Atom.res { resource := "mana", delta := 1 }] }

/-- The consumer effect with its delta moved to the opposite list:
`ResourceDelta(mana, -1)` now sits in the result atoms. -/
def manaConsumerSwapEffect : Effect :=
  { raw_text := "", effect_type := "activated",
    result_atoms := [Atom.res { resource := "mana", delta := -1 }] }

/-- The producer effect with its delta moved to the opposite list:
`ResourceDelta(mana, +1)` now sits in the cost atoms. -/
def manaProducerSwapEffect : Effect :=
  { raw_text := "", effect_type := "static",
    cost_atoms := [Atom.res { resource := "mana", delta := 1 }] }

/-- A card carrying exactly one effect and nothing else of note. -/
def oneEffectCard (e : Effect) : Card :=
  { name := "", mana_value := .fin 0, mana_cost := "", colors := [], types := [],
    subtypes := [], is_permanent := true, cast_timing := "special",
    oracle_text := "", keywords := [], effects := [e] }

/-- The oracle text of the spec's trigger-splitting scenario. -/
def dies_draw_text : String := "Whenever a creature you control dies, draw a card."

/-- A row whose `cmc` cell holds a float NaN. -/
def nan_cmc_row : Row := { cmc := some (.pnum .nan) }

/-! ### Helper lemmas -/

theorem wEq_self {α : Type} [DecidableEq α] (x : α) : wEq (some x) x = true := by
  simp [wEq]

theorem wEqOpt_self {α : Type} [DecidableEq α] (o : Option α) : wEqOpt o o = true := by
  cases o <;> simp [wEqOpt]

theorem wEq_some {α : Type} [DecidableEq α] (x v : α) : wEq (some x) v = decide (x = v) := rfl

theorem wEq_none {α : Type} [DecidableEq α] (v : α) : wEq none v = true := rfl

theorem wEqOpt_some {α : Type} [DecidableEq α] (x : α) (v : Option α) :
    wEqOpt (some x) v = decide (some x = v) := rfl

theorem wEqOpt_none {α : Type} [DecidableEq α] (v : Option α) : wEqOpt none v = true := rfl

theorem charsContain_comma_splitFirst {l : List Char} (h : charsContain l [','] = false) :
    splitFirstChars ',' l = none := by
  induction l with
  | nil => rfl
  | cons c t ih =>
    simp only [charsContain, List.isPrefixOf, Bool.or_eq_false_iff] at h
    obtain ⟨h1, h2⟩ := h
    have hc : ¬(c = ',') := by
      intro hcc
      subst hcc
      simp [List.isPrefixOf] at h1
    simp only [splitFirstChars, if_neg hc, ih h2]

theorem list_sum_map_add {α : Type} (l : List α) (f g : α → ℚ) :
    (l.map (fun x => f x + g x)).sum = (l.map f).sum + (l.map g).sum := by
  induction l with
  | nil => simp
  | cons a t ih =>
    simp only [List.map_cons, List.sum_cons, ih]
    ring

theorem list_sum_swap {α β : Type} (A : List α) (B : List β) (f : α → β → ℚ) :
    (A.map (fun a => (B.map (fun b => f a b)).sum)).sum
      = (B.map (fun b => (A.map (fun a => f a b)).sum)).sum := by
  induction A with
  | nil => simp
  | cons a t ih =>
    simp only [List.map_cons, List.sum_cons, ih, list_sum_map_add]

theorem pair_score_comm (ea eb : Effect) : pair_score ea eb = pair_score eb ea := by
  simp only [pair_score, tag_feed_score, mana_feed_score, body_feed_score]
  ring

theorem list_sum_congr {α : Type} (l : List α) (f g : α → ℚ) (h : ∀ x, f x = g x) :
    (l.map f).sum = (l.map g).sum := by
  rw [funext h]

/-! ### Claim theorems -/

/-- Claim C10: `card_synergy` is symmetric — every contributing term (the
card-level tag feeds, the effect-level pair scan, the shared good outputs and
the shared scarce costs) is applied in both directions, so swapping the
arguments leaves the score unchanged. -/
theorem card_synergy_symmetric : ∀ a b : Card, card_synergy a b = card_synergy b a := by
  intro a b
  simp only [card_synergy]
  have hpair : (a.effects.map (fun ea => (b.effects.map (fun eb => pair_score ea eb)).sum)).sum
      = (b.effects.map (fun eb => (a.effects.map (fun ea => pair_score eb ea)).sum)).sum := by
    rw [list_sum_swap]
    exact list_sum_congr _ _ _ (fun eb =>
      list_sum_congr _ _ _ (fun ea => pair_score_comm ea eb))
  rw [hpair, Finset.inter_comm (good_output_pairs (all_result_tags a)),
    Finset.inter_comm (bad_costs (all_cost_tags a))]
  ring

/-- Claim C1: cost/result mana separation in synergy scoring.  If some effect
of `a` consumes mana through its cost atoms (negative mana `ResourceDelta`)
while producing none in its result atoms, and some effect of `b` produces
mana through its result atoms (positive mana `ResourceDelta`), then the
per-pair mana-feed term of `card_synergy a b` contributes exactly `+2.0` for
that effect pair; on the concrete cost/result-separation scenario the whole
score is `2.0`, and moving the same deltas to the opposite lists removes the
contribution, leaving `0.0`. -/
theorem mana_cost_result_separation :
    (∀ ea eb : Effect, effect_consumes_mana ea = true → effect_produces_mana ea = false →
        effect_produces_mana eb = true → mana_feed_score ea eb = 2) ∧
      card_synergy (oneEffectCard manaConsumerEffect) (oneEffectCard manaProducerEffect) = 2 ∧
      card_synergy (oneEffectCard manaConsumerSwapEffect) (oneEffectCard manaProducerSwapEffect)
        = 0 := by
  refine ⟨?_, ?_, ?_⟩
  · intro ea eb h1 h2 h3
    simp [mana_feed_score, h1, h2, h3]
  · have h1 : effect_consumes_mana manaConsumerEffect = true := by decide
    have h2 : effect_produces_mana manaConsumerEffect = false := by decide
    have h3 : effect_produces_mana manaProducerEffect = true := by decide
    have h4 : effect_consumes_mana manaProducerEffect = false := by decide
    have h5 : effect_produces_bodies manaConsumerEffect = false := by decide
    have h6 : effect_produces_bodies manaProducerEffect = false := by decide
    have h7 : effect_sacs_creatures manaConsumerEffect = false := by decide
    have h8 : effect_sacs_creatures manaProducerEffect = false := by decide
    have p1 : manaConsumerEffect.trigger_tags = ∅ := rfl
    have p2 : manaConsumerEffect.result_tags = ∅ := rfl
    have p3 : manaConsumerEffect.cost_tags = ∅ := rfl
    have p4 : manaProducerEffect.trigger_tags = ∅ := rfl
    have p5 : manaProducerEffect.result_tags = ∅ := rfl
    have p6 : manaProducerEffect.cost_tags = ∅ := rfl
    simp [card_synergy, all_result_tags, all_trigger_tags, all_cost_tags, oneEffectCard,
      pair_score, tag_feed_score, mana_feed_score, body_feed_score, good_output_pairs,
      bad_costs, h1, h2, h3, h4, h5, h6, h7, h8, p1, p2, p3, p4, p5, p6]
  · have h1 : effect_consumes_mana manaConsumerSwapEffect = false := by decide
    have h2 : effect_produces_mana manaConsumerSwapEffect = false := by decide
    have h3 : effect_produces_mana manaProducerSwapEffect = false := by decide
    have h4 : effect_consumes_mana manaProducerSwapEffect = false := by decide
    have h5 : effect_produces_bodies manaConsumerSwapEffect = false := by decide
    have h6 : effect_produces_bodies manaProducerSwapEffect = false := by decide
    have h7 : effect_sacs_creatures manaConsumerSwapEffect = false := by decide
    have h8 : effect_sacs_creatures manaProducerSwapEffect = false := by decide
    have p1 : manaConsumerSwapEffect.trigger_tags = ∅ := rfl
    have p2 : manaConsumerSwapEffect.result_tags = ∅ := rfl
    have p3 : manaConsumerSwapEffect.cost_tags = ∅ := rfl
    have p4 : manaProducerSwapEffect.trigger_tags = ∅ := rfl
    have p5 : manaProducerSwapEffect.result_tags = ∅ := rfl
    have p6 : manaProducerSwapEffect.cost_tags = ∅ := rfl
    simp [card_synergy, all_result_tags, all_trigger_tags, all_cost_tags, oneEffectCard,
      pair_score, tag_feed_score, mana_feed_score, body_feed_score, good_output_pairs,
      bad_costs, h1, h2, h3, h4, h5, h6, h7, h8, p1, p2, p3, p4, p5, p6]

/-- Witness for C1: the general mana-feed statement applied to the concrete
consumer/producer effects. -/
theorem mana_cost_result_separation_witness :
    mana_feed_score manaConsumerEffect manaProducerEffect = 2 :=
  mana_cost_result_separation.1 manaConsumerEffect manaProducerEffect
    (by decide) (by decide) (by decide)

/-- Claim C2: tier-classification precedence.  Any non-blank clause that
satisfies both the replacement pattern and the triggered pattern is
classified `replacement`, never `triggered`; in particular the spec's
example clause is classified `replacement`. -/
theorem classify_tier_replacement_precedence :
    (∀ clause : String, pyStrip clause ≠ "" →
        is_replacement_like (pyStrip clause) = true →
        is_triggered_like (pyStrip clause) = true →
        classify_tier clause = "replacement" ∧ classify_tier clause ≠ "triggered") ∧
      classify_tier "If a creature you control would die, instead exile it."
        = "replacement" := by
  constructor
  · intro clause h1 h2 _h3
    have hr : classify_tier clause = "replacement" := by
      unfold classify_tier
      simp [h1, h2]
    exact ⟨hr, by rw [hr]; decide⟩
  · decide

/-- Witness for C2: a concrete clause matching both the replacement and the
triggered pattern is classified `replacement`. -/
theorem classify_tier_replacement_precedence_witness :
    classify_tier "Whenever a creature would die, instead exile it." = "replacement" ∧
      classify_tier "Whenever a creature would die, instead exile it." ≠ "triggered" :=
  classify_tier_replacement_precedence.1
    "Whenever a creature would die, instead exile it." (by decide) (by decide) (by decide)

/-- Claim C4: `StateDelta` bitset-subset semantics.  A pattern that only
specifies `set_mask = m` matches exactly the atoms with `set_mask &&& m = m`;
in particular `TAPPED` matches `TAPPED ||| FACE_DOWN`, while
`TAPPED ||| FACE_DOWN` does not match `TAPPED` alone. -/
theorem state_delta_mask_subset_semantics :
    (∀ (m : Nat) (A : StateDelta),
        atom_matches (.state { set_mask := some m }) (.state A)
          = decide (A.set_mask &&& m = m)) ∧
      atom_matches (.state { set_mask := some TAPPED })
          (.state { set_mask := TAPPED ||| FACE_DOWN }) = true ∧
      atom_matches (.state { set_mask := some (TAPPED ||| FACE_DOWN) })
          (.state { set_mask := TAPPED }) = false := by
  refine ⟨?_, by decide, by decide⟩
  intro m A
  simp [atom_matches, wEq, wEqOpt]

/-- Counterexample to claim C3 as stated: copy a `StateDelta` atom into a
pattern and change exactly one field (`set_mask`) to a different concrete
value; `atom_matches` still returns true, because `StateDelta` masks are
compared by bitset subset, not equality. -/
theorem wildcard_matching_mask_counterexample :
    atom_matches
        (.state { sdCopy { set_mask := TAPPED ||| FACE_DOWN } with set_mask := some TAPPED })
        (.state { set_mask := TAPPED ||| FACE_DOWN }) = true ∧
      some TAPPED ≠ some (TAPPED ||| FACE_DOWN) := by
  decide

/-- Claim C3 (amended): single-field wildcard matching.  For every variant,
copying the atom and wildcarding any one field still matches, and changing
any one equality-tested field to a different concrete value fails to match;
for the `StateDelta` mask fields the amended rule is subset semantics — a
changed concrete mask matches exactly when it is a submask of the atom's. -/
theorem wildcard_matching_amended :
    (∀ a : ZoneMove,
        atom_matches (.zone { zmCopy a with from_zone := none }) (.zone a) = true ∧
        atom_matches (.zone { zmCopy a with to_zone := none }) (.zone a) = true ∧
        atom_matches (.zone { zmCopy a with obj := none }) (.zone a) = true ∧
        atom_matches (.zone { zmCopy a with controller := none }) (.zone a) = true ∧
        atom_matches (.zone { zmCopy a with cause := none }) (.zone a) = true ∧
        atom_matches (.zone { zmCopy a with source := none }) (.zone a) = true) ∧
    (∀ (a : ZoneMove) (v : Zone), v ≠ a.from_zone →
        atom_matches (.zone { zmCopy a with from_zone := some v }) (.zone a) = false) ∧
    (∀ (a : ZoneMove) (v : Zone), v ≠ a.to_zone →
        atom_matches (.zone { zmCopy a with to_zone := some v }) (.zone a) = false) ∧
    (∀ (a : ZoneMove) (v : ObjKind), v ≠ a.obj →
        atom_matches (.zone { zmCopy a with obj := some v }) (.zone a) = false) ∧
    (∀ (a : ZoneMove) (v : String), some v ≠ a.controller →
        atom_matches (.zone { zmCopy a with controller := some v }) (.zone a) = false) ∧
    (∀ (a : ZoneMove) (v : Cause), v ≠ a.cause →
        atom_matches (.zone { zmCopy a with cause := some v }) (.zone a) = false) ∧
    (∀ (a : ZoneMove) (v : Source), v ≠ a.source →
        atom_matches (.zone { zmCopy a with source := some v }) (.zone a) = false) ∧
    (∀ a : ResourceDelta,
        atom_matches (.res { rdCopy a with resource := none }) (.res a) = true ∧
        atom_matches (.res { rdCopy a with delta := none }) (.res a) = true ∧
        atom_matches (.res { rdCopy a with target := none }) (.res a) = true ∧
        atom_matches (.res { rdCopy a with subtype := none }) (.res a) = true ∧
        atom_matches (.res { rdCopy a with cause := none }) (.res a) = true ∧
        atom_matches (.res { rdCopy a with source := none }) (.res a) = true) ∧
    (∀ (a : ResourceDelta) (v : String), v ≠ a.resource →
        atom_matches (.res { rdCopy a with resource := some v }) (.res a) = false) ∧
    (∀ (a : ResourceDelta) (v : Int), v ≠ a.delta →
        atom_matches (.res { rdCopy a with delta := some v }) (.res a) = false) ∧
    (∀ (a : ResourceDelta) (v : String), some v ≠ a.target →
        atom_matches (.res { rdCopy a with target := some v }) (.res a) = false) ∧
    (∀ (a : ResourceDelta) (v : String), some v ≠ a.subtype →
        atom_matches (.res { rdCopy a with subtype := some v }) (.res a) = false) ∧
    (∀ (a : ResourceDelta) (v : Cause), v ≠ a.cause →
        atom_matches (.res { rdCopy a with cause := some v }) (.res a) = false) ∧
    (∀ (a : ResourceDelta) (v : Source), v ≠ a.source →
        atom_matches (.res { rdCopy a with source := some v }) (.res a) = false) ∧
    (∀ a : StepChange,
        atom_matches (.step { scCopy a with step := none }) (.step a) = true ∧
        atom_matches (.step { scCopy a with source := none }) (.step a) = true) ∧
    (∀ (a : StepChange) (v : Step), v ≠ a.step →
        atom_matches (.step { scCopy a with step := some v }) (.step a) = false) ∧
    (∀ (a : StepChange) (v : Source), v ≠ a.source →
        atom_matches (.step { scCopy a with source := some v }) (.step a) = false) ∧
    (∀ a : StateDelta,
        atom_matches (.state { sdCopy a with target := none }) (.state a) = true ∧
        atom_matches (.state { sdCopy a with set_mask := none }) (.state a) = true ∧
        atom_matches (.state { sdCopy a with clear_mask := none }) (.state a) = true ∧
        atom_matches (.state { sdCopy a with cause := none }) (.state a) = true ∧
        atom_matches (.state { sdCopy a with source := none }) (.state a) = true) ∧
    (∀ (a : StateDelta) (v : String), some v ≠ a.target →
        atom_matches (.state { sdCopy a with target := some v }) (.state a) = false) ∧
    (∀ (a : StateDelta) (v : Cause), v ≠ a.cause →
        atom_matches (.state { sdCopy a with cause := some v }) (.state a) = false) ∧
    (∀ (a : StateDelta) (v : Source), v ≠ a.source →
        atom_matches (.state { sdCopy a with source := some v }) (.state a) = false) ∧
    (∀ (a : StateDelta) (m : Nat), a.set_mask &&& m = m →
        atom_matches (.state { sdCopy a with set_mask := some m }) (.state a) = true) ∧
    (∀ (a : StateDelta) (m : Nat), a.set_mask &&& m ≠ m →
        atom_matches (.state { sdCopy a with set_mask := some m }) (.state a) = false) ∧
    (∀ (a : StateDelta) (m : Nat), a.clear_mask &&& m = m →
        atom_matches (.state { sdCopy a with clear_mask := some m }) (.state a) = true) ∧
    (∀ (a : StateDelta) (m : Nat), a.clear_mask &&& m ≠ m →
        atom_matches (.state { sdCopy a with clear_mask := some m }) (.state a) = false) := by
  refine ⟨?_, ?_, ?_, ?_, ?_, ?_, ?_, ?_, ?_, ?_, ?_, ?_, ?_, ?_, ?_, ?_, ?_, ?_, ?_,
    ?_, ?_, ?_, ?_, ?_, ?_⟩ <;>
    intros <;>
    simp_all [atom_matches, zmCopy, rdCopy, scCopy, sdCopy, wEq_some, wEq_none,
      wEqOpt_some, wEqOpt_none, wEq_self, wEqOpt_self, Nat.and_self]

/-- Witness for C3 (amended): the equality-field parts applied at a concrete
atom and a concrete changed value. -/
theorem wildcard_matching_amended_witness :
    atom_matches
        (.zone { zmCopy { from_zone := Zone.BATTLEFIELD, to_zone := Zone.GRAVEYARD,
                          obj := ObjKind.PERMANENT } with from_zone := some Zone.HAND })
        (.zone { from_zone := Zone.BATTLEFIELD, to_zone := Zone.GRAVEYARD,
                 obj := ObjKind.PERMANENT }) = false :=
  wildcard_matching_amended.2.1
    { from_zone := Zone.BATTLEFIELD, to_zone := Zone.GRAVEYARD, obj := ObjKind.PERMANENT }
    Zone.HAND (by decide)

/-- Claim C5 (code bug): on the clause `"Whenever a creature you control
dies, draw a card."` the parser classifies the effect as triggered but its
`trigger_text` comes out as `"When ever a creature you control dies"` — the
ordered regex alternation matches only `"When"` of `"Whenever"` and
`_split_trigger_clause` re-joins the pieces with a space — so the trigger
span is NOT a substring of `raw_text`, contrary to the stated invariant (and
to the function's own docstring). -/
theorem effect_subspan_invariant_bug :
    (parse_effects_from_text dies_draw_text "Creature" (some "Grim Haruspex")).map
        (fun e => (e.effect_type, e.raw_text, e.trigger_text))
      = [("triggered", dies_draw_text, some "When ever a creature you control dies")] ∧
      strContains dies_draw_text "When ever a creature you control dies" = false := by
  decide

/-- Counterexample to claim C6 as stated: a NaN `cmc` cell is truthy in
Python, passes through `float()` unchanged, and yields a NaN `mana_value`
rather than the claimed `0.0`. -/
theorem nan_mana_value_counterexample :
    (card_from_row nan_cmc_row).mana_value = MFloat.nan ∧ MFloat.nan ≠ MFloat.fin 0 := by
  constructor
  · rfl
  · decide

/-- Claim C6 (amended): input-field tolerance of card assembly.  An absent,
`None` or empty `oracle_text` yields an empty effects list; an absent,
`None` or non-parseable-string `cmc` yields `mana_value = 0.0`; a NaN `cmc`
is passed through and yields NaN (not 0.0).  `card_from_row` is a total
function: the one fallible primitive (`float`) is caught by the source's
try/except, which the `pyFloatE` match models, so no exception escapes. -/
theorem card_from_row_field_tolerance :
    (∀ row : Row,
        row.oracle_text = none ∨ row.oracle_text = some PVal.pnone ∨
          row.oracle_text = some (PVal.pstr "") →
        (card_from_row row).effects = []) ∧
    (∀ row : Row,
        row.cmc = none ∨ row.cmc = some PVal.pnone ∨
          (∃ s, row.cmc = some (PVal.pstr s) ∧ pyParseFloat s = none) →
        (card_from_row row).mana_value = MFloat.fin 0) ∧
    (∀ row : Row, row.cmc = some (PVal.pnum MFloat.nan) →
        (card_from_row row).mana_value = MFloat.nan) := by
  refine ⟨?_, ?_, ?_⟩
  · intro row h
    have hot : strFieldOf row.oracle_text = "" := by
      rcases h with h | h | h <;> simp [h, strFieldOf, pyTruthy, pyStr]
    simp [card_from_row, hot, parse_effects_from_text]
  · intro row h
    rcases h with h | h | ⟨s, hs, hp⟩
    · simp [card_from_row, h, pyTruthy, pyFloatE]
    · simp [card_from_row, h, pyTruthy, pyFloatE]
    · by_cases hse : s = ""
      · subst hse
        simp [card_from_row, hs, pyTruthy, pyFloatE]
      · simp [card_from_row, hs, pyTruthy, pyFloatE, hse, hp]
  · intro row h
    simp [card_from_row, h, pyTruthy, pyFloatE]

/-- Witness for C6 (amended): an empty oracle text gives no effects, and a
non-numeric `cmc` string falls back to `0.0`. -/
theorem card_from_row_field_tolerance_witness :
    (card_from_row { oracle_text := some (PVal.pstr "") }).effects = [] ∧
      (card_from_row { cmc := some (PVal.pstr "not a number") }).mana_value = MFloat.fin 0 :=
  ⟨card_from_row_field_tolerance.1 _ (Or.inr (Or.inr rfl)),
    card_from_row_field_tolerance.2.1 _ (Or.inr (Or.inr ⟨"not a number", rfl, by decide⟩))⟩

/-- Claim C7 (code bug): a preamble-matching clause with no comma after the
preamble is returned whole as the trigger with an empty result, and in the
pipeline the empty result yields no result tags and no result atoms.  But in
the comma case the claim fails for clauses starting `"Whenever"`: the regex
alternation matches only `"When"`, so the returned trigger is
`"When ever another creature you control dies"` instead of the text before
the first comma — contradicting the function's docstring. -/
theorem split_trigger_no_comma_bug :
    (∀ text g : String, triggerPreambleMatch text = some g →
        strContains (pyStrip (String.mk (text.toList.drop g.length))) "," = false →
        _split_trigger_clause text = (some (pyStrip text), "")) ∧
      _split_trigger_clause "Whenever another creature you control dies, draw a card."
        = (some "When ever another creature you control dies", "draw a card.") ∧
      (parse_effects_from_text "When this creature dies draw a card." "" none).map
          (fun e => (e.result_text, e.result_tags, e.result_atoms))
        = [(some "", ∅, [])] := by
  refine ⟨?_, by decide, by decide⟩
  intro text g hm hc
  unfold _split_trigger_clause
  rw [hm]
  simp only [strContains] at hc
  have hsplit : splitFirst ','
      (pyStrip (String.mk (text.toList.drop g.length))) = none := by
    unfold splitFirst
    rw [charsContain_comma_splitFirst hc]
  simp only [String.toList] at hsplit
  simp [hsplit]

/-- Witness for C7: the no-comma branch applied to a concrete clause. -/
theorem split_trigger_no_comma_bug_witness :
    _split_trigger_clause "When this creature dies draw a card."
      = (some (pyStrip "When this creature dies draw a card."), "") :=
  split_trigger_no_comma_bug.1 "When this creature dies draw a card." "When"
    (by decide) (by decide)

/-- Claim C8: choice-mana maximum policy.  `"Add {G} or {U}."` yields exactly
one `ResourceDelta(mana, +1, subtype "G|U")`; the amount is the maximum over
the `" or "`-separated options (`"Add {G}{G} or {U}."` gives 2), and
tap/untap symbols are excluded from mana totals (`"Add {T}."` yields no mana
gain at all). -/
theorem add_choice_mana_max_policy :
    _parse_result_atoms "Add \x7bG\x7d or \x7bU\x7d." none
        = [Atom.res { resource := "mana", delta := 1, target := some "YOU",
                      subtype := some "G|U", cause := Cause.EFFECT, source := Source.CARD }] ∧
      _mana_gain_from_add_clause "Add \x7bG\x7d\x7bG\x7d or \x7bU\x7d." = some (2, "GG|U") ∧
      _mana_gain_from_add_clause "Add \x7bT\x7d." = none := by
  decide

/-- Claim C9: determinism of parsing.  The embedded `card_from_row` is a pure
function — the source reads only immutable module-level tables and threads
no state — so equal input rows produce structurally equal cards. -/
theorem card_from_row_deterministic :
    ∀ r1 r2 : Row, r1 = r2 → card_from_row r1 = card_from_row r2 :=
  fun _ _ h => congrArg card_from_row h

/-- Witness for C9: two calls on the same concrete row agree. -/
theorem card_from_row_deterministic_witness :
    card_from_row { oracle_text := some (.pstr "Add \x7bG\x7d."), name := some (.pstr "A") }
      = card_from_row { oracle_text := some (.pstr "Add \x7bG\x7d."), name := some (.pstr "A") } :=
  card_from_row_deterministic _ _ rfl

end MTG
